import Mathlib

/-!
Shallow embedding of the Punchy company-registry service (`src/api.js`,
`src/models.js`).

The service keeps Company records in a primary MongoDB store and mirrors
them into an ElasticSearch index.  Each HTTP handler is embedded as a pure
function from a request, the current primary store and the current search
index to an `OpResult` holding the HTTP status, the trace of store accesses
performed (in order), the resulting stores, and the id returned to the
client (register only).

Failures of the external stores (MongoDB errors, ElasticSearch errors,
CastError on malformed 12+-character ids) are injected through an `Env`
record of failure flags; the fresh id and the creation timestamp assigned
during register are also `Env` parameters.  The search index is modelled
from the spec's Search Index Adapter contract (§4.3) as an association
list whose delete is idempotent; the ElasticSearch client itself is an
external service and not part of the repository.
-/

/-- A JavaScript value, as far as `validateId` (src/api.js:45-53) can
distinguish them: strings and arrays carry a `.length`, other values
(numbers, booleans, null, undefined) have `.length === undefined`. -/
inductive JSVal where
  | str (s : String)
  | num (n : Int)
  | arr (len : Nat)
  | boolean (b : Bool)
  | null
  | undef
deriving Repr, DecidableEq

/-- JavaScript `v.length`: property access on `null`/`undefined` throws a
TypeError (`Except.error`); strings and arrays have a numeric length (an
array is represented by its length, the only thing `validateId` observes);
every other value (numbers, booleans) has `.length === undefined`. -/
def jsLength : JSVal → Except Unit (Option Nat)
  | .str s => Except.ok (some s.length)
  | .arr len => Except.ok (some len)
  | .null => Except.error ()
  | .undef => Except.error ()
  | _ => Except.ok none

/-- JavaScript `x < m` for `x` a possibly-undefined number:
`undefined < m` evaluates to `false`. -/
def jsLtNum : Option Nat → Nat → Bool
  | none, _ => false
  | some n, m => n < m

/-- JavaScript `typeof v === 'string'`. -/
def isStringVal : JSVal → Bool
  | .str _ => true
  | _ => false

def tooShortMsg : String := "Company ID must be at least 12 characters"

def wrongTypeMsg : String := "Company ID must be a string"

/-- Outcome of running `validateId`: the callback invoked with no error,
the callback invoked with an error message, or a thrown TypeError (the
`id.length` access crashed). -/
inductive ValidateResult where
  | ok
  | err (msg : String)
  | crash
deriving Repr, DecidableEq

/-- Models `validateId` (src/api.js:45-53): the length check runs first, the
type check second; reading `.length` of a null/undefined candidate throws
before either check can report. -/
def validateId (v : JSVal) : ValidateResult :=
  match jsLength v with
  | Except.error _ => ValidateResult.crash
  | Except.ok l =>
    if jsLtNum l 12 then ValidateResult.err tooShortMsg
    else if !(isStringVal v) then ValidateResult.err wrongTypeMsg
    else ValidateResult.ok

/-- A JSON field of a request body: absent, null, or a string. -/
inductive JStr where
  | undef
  | null
  | str (s : String)
deriving Repr, DecidableEq

/-- JavaScript truthiness of a `JStr`: only a non-empty string is truthy. -/
def truthy : JStr → Bool
  | .str s => s ≠ ""
  | _ => false

/-- The string carried by a `JStr`, empty for null/undefined
(`company.description || ''`, src/api.js:222-223). -/
def jstrOrEmpty : JStr → String
  | .str s => s
  | _ => ""

/- ## ASCII / lodash `_.capitalize` model (src/api.js:99)

Header strings are compared through their UTF-16 code-unit sequences
(`List Nat`); `_.capitalize` upper-cases the first unit and lower-cases
the rest. -/

/-- ASCII lower-casing of one code unit. -/
def lowerN (n : Nat) : Nat := if 65 ≤ n ∧ n ≤ 90 then n + 32 else n

/-- ASCII upper-casing of one code unit. -/
def upperN (n : Nat) : Nat := if 97 ≤ n ∧ n ≤ 122 then n - 32 else n

/-- The code-unit sequence of a string. -/
def strN (s : String) : List Nat := s.data.map Char.toNat

/-- lodash `_.capitalize`: first unit upper-cased, the rest lower-cased. -/
def capList : List Nat → List Nat
  | [] => []
  | c :: cs => upperN c :: cs.map lowerN

/-- Whole-string ASCII lower-casing. -/
def lowList (l : List Nat) : List Nat := l.map lowerN

/-- Request headers: `admin_token` and `content-type`, each possibly absent. -/
structure Req where
  adminToken : Option String
  contentType : Option String
deriving Repr, DecidableEq

/-- Models `checkHeaders` (src/api.js:86-105).  Returns the HTTP status sent on the
error path (`401` or `415`), `none` when the checks pass.  The admin-token
check runs first; the content-type check runs only when `hasContent`.
A missing content-type header capitalizes (via lodash on `undefined`) to
the empty string and is rejected. -/
def checkHeaders (req : Req) (hasContent : Bool) : Option Nat :=
  match req.adminToken with
  | none => some 401
  | some t =>
    if t ≠ "dabs" then some 401
    else if hasContent &&
        !(capList (strN ((req.contentType).getD "")) == strN "Application/json") then
      some 415
    else none

/- ## Stores -/

/-- A Company record of the primary store (src/models.js): `_id`, `title`,
`description`, `url`, `created`.  The creation timestamp is a `Nat`. -/
structure Company where
  id : String
  title : String
  description : String
  url : String
  created : Nat
deriving Repr, DecidableEq

/-- A document of the search index.  `created` is optional because the
update handler reindexes with `excludeTitles(dbCompany)` (src/api.js:301),
which carries no `created` field, while register adds it
(src/api.js:236-237). -/
structure IndexDoc where
  title : String
  description : String
  url : String
  created : Option Nat
deriving Repr, DecidableEq

/-- The primary (MongoDB) store. -/
abbrev PrimaryStore := List Company

/-- The search (ElasticSearch) index: documents keyed by id. -/
abbrev SearchIndex := List (String × IndexDoc)

/-- One store access, as recorded in an operation's trace. -/
inductive Ev where
  | primaryFind
  | primaryFindId (id : String)
  | primarySave (id : String)
  | primaryRemove (id : String)
  | indexUpsert (id : String)
  | indexDelete (id : String)
deriving Repr, DecidableEq

/-- Failure injection for the external stores, plus the id and timestamp
the primary store assigns on insert. -/
structure Env where
  findErr : Bool
  castErr : Bool
  saveErr : Bool
  removeErr : Bool
  indexErr : Bool
  newId : String
  now : Nat
deriving Repr, DecidableEq

/-- Models `Company.findOne({'title': company.title})` (src/api.js:210).  A string
title matches records with that exact title.  A null title
(`findOne({title: null})`) matches no record, since every stored record
has a string title.  An undefined title is stripped from the query by
mongoose, leaving `findOne({})`, which returns the first document. -/
def findByTitle : JStr → PrimaryStore → Option Company
  | .str s, store => store.find? (fun c => c.title == s)
  | .null, _ => none
  | .undef, store => store.head?

/-- Models `Company.findOne({'_id': id})` (src/api.js:65). -/
def findById (id : String) (store : PrimaryStore) : Option Company :=
  store.find? (fun c => c.id == id)

/-- Mongoose validation of the schema's `title` field (src/models.js):
required (an empty string fails), `minlength 1`, `maxlength 100`. -/
def titleStrValid (s : String) : Bool := 1 ≤ s.length && s.length ≤ 100

/-- Schema validation of a supplied title: a missing or null title fails
the `required` constraint, a string is checked against the bounds. -/
def titleValid : JStr → Bool
  | .str s => titleStrValid s
  | _ => false

/-- Replace-by-id write-back of a saved document (`company.save`). -/
def replaceById (store : PrimaryStore) (i : String) (c : Company) : PrimaryStore :=
  store.map (fun x => if x.id == i then c else x)

/-- Models `client.index` (§4.3 `upsert`): replaces any document stored under the
id. -/
def upsertIdx (idx : SearchIndex) (i : String) (d : IndexDoc) : SearchIndex :=
  idx.filter (fun p => p.1 ≠ i) ++ [(i, d)]

/-- Document stored in the index under an id. -/
def lookupIdx (idx : SearchIndex) (i : String) : Option IndexDoc :=
  (idx.find? (fun p => p.1 == i)).map (fun p => p.2)

/-- Models `client.delete` (§4.3 `delete`): removes the document under the id;
deleting an absent id leaves the index unchanged and is not an error. -/
def deleteIdx (idx : SearchIndex) (i : String) : SearchIndex :=
  idx.filter (fun p => p.1 ≠ i)

/-- Outcome of one handler invocation: HTTP status, ordered trace of store
accesses, resulting stores, and the id returned to the client (register's
201 response only). -/
structure OpResult where
  status : Nat
  events : List Ev
  primary : PrimaryStore
  index : SearchIndex
  returnedId : Option String
deriving Repr, DecidableEq

/-- Models `getCompanyById` (src/api.js:59-81): id validation (412 before any
store access), then `findOne` by id — a CastError maps to 404, another
store error to 500, absence to 404. -/
def getCompanyById (env : Env) (id : String) (store : PrimaryStore) :
    Except Nat Company × List Ev :=
  match validateId (JSVal.str id) with
  | ValidateResult.crash => (Except.error 500, [])
  | ValidateResult.err _ => (Except.error 412, [])
  | ValidateResult.ok =>
    if env.castErr then (Except.error 404, [Ev.primaryFindId id])
    else if env.findErr then (Except.error 500, [Ev.primaryFindId id])
    else
      match findById id store with
      | none => (Except.error 404, [Ev.primaryFindId id])
      | some c => (Except.ok c, [Ev.primaryFindId id])

/-- Register handler, `app.post('/companies')` (src/api.js:197-255):
headers → duplicate-title `findOne` → `save` (mongoose validation happens
inside the save; any save error is answered 412 by
`handleValidationError`) → `client.index` with
`{title, description, url, created}` — index success answers 201 with the
id, index failure answers 500. -/
def register (env : Env) (req : Req) (title descr url : JStr)
    (store : PrimaryStore) (idx : SearchIndex) : OpResult :=
  match checkHeaders req true with
  | some code => ⟨code, [], store, idx, none⟩
  | none =>
    if env.findErr then ⟨500, [Ev.primaryFind], store, idx, none⟩
    else
      match findByTitle title store with
      | some _ => ⟨409, [Ev.primaryFind], store, idx, none⟩
      | none =>
        if !titleValid title || env.saveErr then
          ⟨412, [Ev.primaryFind, Ev.primarySave env.newId], store, idx, none⟩
        else
          let c : Company :=
            ⟨env.newId, jstrOrEmpty title, jstrOrEmpty descr, jstrOrEmpty url, env.now⟩
          if env.indexErr then
            ⟨500, [Ev.primaryFind, Ev.primarySave env.newId, Ev.indexUpsert env.newId],
              store ++ [c], idx, none⟩
          else
            ⟨201, [Ev.primaryFind, Ev.primarySave env.newId, Ev.indexUpsert env.newId],
              store ++ [c],
              upsertIdx idx env.newId ⟨c.title, c.description, c.url, some c.created⟩,
              some env.newId⟩

/-- The partial-merge patch of the update handler (src/api.js:278-288):
each of title/description/url is overwritten exactly when the supplied
value is truthy. -/
def applyPatch (c : Company) (title descr url : JStr) : Company :=
  { id := c.id
    title := if truthy title then jstrOrEmpty title else c.title
    description := if truthy descr then jstrOrEmpty descr else c.description
    url := if truthy url then jstrOrEmpty url else c.url
    created := c.created }

/-- Update handler, `app.post('/companies/:id')` (src/api.js:258-315):
headers → `getCompanyById` → patch merge → `save` — the save re-runs the
mongoose schema validation on the merged document (src/models.js), so a
merged title outside the 1-100 bounds fails it, and any save error
answers 500 with the store unchanged (src/api.js:292-294) →
`client.index` with `excludeTitles(dbCompany)` = `{title, description,
url}`, no `created` — index success answers 200, failure 500. -/
def update (env : Env) (req : Req) (id : String) (title descr url : JStr)
    (store : PrimaryStore) (idx : SearchIndex) : OpResult :=
  match checkHeaders req true with
  | some code => ⟨code, [], store, idx, none⟩
  | none =>
    match getCompanyById env id store with
    | (Except.error code, evs) => ⟨code, evs, store, idx, none⟩
    | (Except.ok c, evs) =>
      let c' := applyPatch c title descr url
      if !titleStrValid c'.title || env.saveErr then
        ⟨500, evs ++ [Ev.primarySave id], store, idx, none⟩
      else if env.indexErr then
        ⟨500, evs ++ [Ev.primarySave id, Ev.indexUpsert id],
          replaceById store id c', idx, none⟩
      else
        ⟨200, evs ++ [Ev.primarySave id, Ev.indexUpsert id],
          replaceById store id c',
          upsertIdx idx id ⟨c'.title, c'.description, c'.url, none⟩, none⟩

/-- Remove handler, `app.delete('/companies/:id')` (src/api.js:318-358):
headers (admin token only, no content) → `getCompanyById` →
`company.remove` (error answers 500) → `client.delete` on the index —
success answers 200, failure 500. -/
def remove (env : Env) (req : Req) (id : String)
    (store : PrimaryStore) (idx : SearchIndex) : OpResult :=
  match checkHeaders req false with
  | some code => ⟨code, [], store, idx, none⟩
  | none =>
    match getCompanyById env id store with
    | (Except.error code, evs) => ⟨code, evs, store, idx, none⟩
    | (Except.ok _, evs) =>
      if env.removeErr then ⟨500, evs ++ [Ev.primaryRemove id], store, idx, none⟩
      else if env.indexErr then
        ⟨500, evs ++ [Ev.primaryRemove id, Ev.indexDelete id],
          store.filter (fun x => x.id ≠ id), idx, none⟩
      else
        ⟨200, evs ++ [Ev.primaryRemove id, Ev.indexDelete id],
          store.filter (fun x => x.id ≠ id), deleteIdx idx id, none⟩

/-- FetchOne handler, `app.get('/companies/:id')` (src/api.js:186-194):
no header check, `getCompanyById`, 200 on success. -/
def fetchOne (env : Env) (id : String) (store : PrimaryStore) : OpResult :=
  match getCompanyById env id store with
  | (Except.error code, evs) => ⟨code, evs, store, [], none⟩
  | (Except.ok _, evs) => ⟨200, evs, store, [], none⟩

/- ## Trace predicates -/

/-- Is the event an access to the search index? -/
def isIndexEv : Ev → Bool
  | .indexUpsert _ => true
  | .indexDelete _ => true
  | _ => false

/-- Is the event an access to the primary store? -/
def isPrimaryEv (e : Ev) : Bool := !isIndexEv e

/-- Helper `primLeadsAux seen t`: every index access in `t` is preceded (in the
whole trace) by some primary-store access; `seen` records whether one has
occurred already. -/
def primLeadsAux : Bool → List Ev → Bool
  | _, [] => true
  | seen, e :: es =>
    if isIndexEv e then seen && primLeadsAux seen es
    else primLeadsAux (seen || isPrimaryEv e) es

/-- Every index access of the trace is strictly preceded by a
primary-store access. -/
def primLeads (t : List Ev) : Bool := primLeadsAux false t

/-- The trace touches the search index. -/
def hasIndexEv (t : List Ev) : Bool := t.any isIndexEv

/-- Titles are pairwise distinct in the primary store. -/
def uniqueTitles (store : PrimaryStore) : Prop :=
  (store.map (fun c => c.title)).Nodup

instance (s : PrimaryStore) : Decidable (uniqueTitles s) := by
  unfold uniqueTitles; infer_instance

/- ## Sanity examples (concrete evaluation of the model) -/

/-- Headers with the right token and lowercase json content type pass. -/
example : checkHeaders ⟨some "dabs", some "application/json"⟩ true = none := by decide

/-- A wrong admin token is a 401. -/
example : checkHeaders ⟨some "oops", some "application/json"⟩ true = some 401 := by decide

/-- A parameterised media type is a 415. -/
example :
    checkHeaders ⟨some "dabs", some "application/json; charset=utf-8"⟩ true = some 415 := by
  decide

example : validateId (JSVal.str "abc") = ValidateResult.err tooShortMsg := by decide

example : validateId (JSVal.str "aaaaaaaaaaaa") = ValidateResult.ok := by decide

example : validateId JSVal.null = ValidateResult.crash := by decide

example :
    (register ⟨false, false, false, false, false, "n123456789012", 7⟩
      ⟨some "dabs", some "application/json"⟩ (JStr.str "Acme") JStr.undef JStr.undef
      [] []).status = 201 := by decide

/- ## Concrete fixtures used by witnesses and counterexamples -/

/-- Environment with no store failures. -/
def envW : Env := ⟨false, false, false, false, false, "n23456789012", 5⟩

/-- Environment where the search-index call fails. -/
def envIdxFail : Env := ⟨false, false, false, false, true, "n23456789012", 5⟩

/-- Environment where the primary save fails. -/
def envSaveFail : Env := ⟨false, false, true, false, false, "n23456789012", 5⟩

/-- Request with correct admin token and lowercase json content type. -/
def reqW : Req := ⟨some "dabs", some "application/json"⟩

/-- A one-company store. -/
def storeW : PrimaryStore := [⟨"cccccccccccc", "Acme", "", "", 3⟩]

/-- A two-company store with distinct titles. -/
def storeW2 : PrimaryStore :=
  [⟨"cccccccccccc", "Acme", "", "", 3⟩, ⟨"dddddddddddd", "Beta", "", "", 4⟩]

/-- A 101-character title, above the schema's `maxlength 100`. -/
def longTitle : String :=
  String.mk (List.replicate 101 'a')

/- ## Helper lemmas -/

/-- Evaluation of `validateId` on an actual string id: the length check
alone decides, and no crash is possible. -/
theorem validateId_str (s : String) :
    validateId (JSVal.str s)
      = if s.length < 12 then ValidateResult.err tooShortMsg
        else ValidateResult.ok := by
  simp [validateId, jsLength, jsLtNum, isStringVal]

/-- ASCII: upper-casing a unit yields `A` exactly when lower-casing it
yields `a`. -/
theorem upperN_eq_iff_lowerN_eq (n : Nat) : upperN n = 65 ↔ lowerN n = 97 := by
  unfold upperN lowerN
  split <;> split <;> omega

/-- lodash-capitalizing a code-unit sequence to `Application/json` is the
same as lower-casing it to `application/json`: the comparison is
case-insensitive over the whole value. -/
theorem capList_eq_iff_lowList_eq (l : List Nat) :
    capList l = strN "Application/json" ↔ lowList l = strN "application/json" := by
  cases l with
  | nil =>
    simp only [capList, lowList, List.map_nil]
    decide
  | cons c cs =>
    have h1 : strN "Application/json" = 65 :: strN "pplication/json" := by decide
    have h2 : strN "application/json" = 97 :: strN "pplication/json" := by decide
    rw [h1, h2]
    simp only [capList, lowList, List.map_cons, List.cons.injEq]
    rw [upperN_eq_iff_lowerN_eq]

/-- The function `checkHeaders` only ever reports 401 or 415. -/
theorem checkHeaders_codes (req : Req) (b : Bool) (code : Nat)
    (h : checkHeaders req b = some code) : code = 401 ∨ code = 415 := by
  unfold checkHeaders at h
  split at h
  · simp_all
  · split at h
    · simp_all
    · split at h <;> simp_all

/-- The possible outcomes of `getCompanyById`: a 412 with no store access,
an error after the `findOne` call, or the found company after the
`findOne` call. -/
theorem getCompanyById_cases (env : Env) (id : String) (store : PrimaryStore) :
    getCompanyById env id store = (Except.error 412, [])
    ∨ (∃ code, (code = 404 ∨ code = 500) ∧
        getCompanyById env id store = (Except.error code, [Ev.primaryFindId id]))
    ∨ (∃ c, findById id store = some c ∧
        getCompanyById env id store = (Except.ok c, [Ev.primaryFindId id])) := by
  unfold getCompanyById
  rw [validateId_str]
  by_cases hlen : id.length < 12
  · rw [if_pos hlen]
    exact Or.inl rfl
  · rw [if_neg hlen]
    split
    · rename_i heq
      exact absurd heq (by simp)
    · rename_i msg heq
      exact absurd heq (by simp)
    · split
      · exact Or.inr (Or.inl ⟨404, Or.inl rfl, rfl⟩)
      · split
        · exact Or.inr (Or.inl ⟨500, Or.inr rfl, rfl⟩)
        · split
          · exact Or.inr (Or.inl ⟨404, Or.inl rfl, rfl⟩)
          · rename_i c hc
            exact Or.inr (Or.inr ⟨c, hc, rfl⟩)

/-- Evaluation of `getCompanyById` under explicit hypotheses: valid id, no store error,
company found. -/
theorem getCompanyById_ok (env : Env) (id : String) (store : PrimaryStore)
    (c : Company) (hlen : ¬ id.length < 12) (hcast : env.castErr = false)
    (hfind : env.findErr = false) (hfound : findById id store = some c) :
    getCompanyById env id store = (Except.ok c, [Ev.primaryFindId id]) := by
  unfold getCompanyById
  rw [validateId_str, if_neg hlen]
  simp [hcast, hfind, hfound]

/-- Looking up the freshly upserted id returns the upserted document. -/
theorem lookupIdx_upsert (idx : SearchIndex) (i : String) (d : IndexDoc) :
    lookupIdx (upsertIdx idx i d) i = some d := by
  unfold lookupIdx upsertIdx
  rw [List.find?_append]
  have h1 : (idx.filter fun p => p.1 ≠ i).find? (fun p => p.1 == i) = none := by
    rw [List.find?_eq_none]
    intro p hp
    have := (List.mem_filter.mp hp).2
    simp_all
  simp [h1]

/-- Index delete of an id that is absent from the index is a no-op. -/
theorem deleteIdx_absent (idx : SearchIndex) (i : String)
    (h : lookupIdx idx i = none) : deleteIdx idx i = idx := by
  unfold deleteIdx
  rw [List.filter_eq_self]
  intro p hp
  unfold lookupIdx at h
  rw [Option.map_eq_none'] at h
  have := List.find?_eq_none.mp h p hp
  simp_all

/- ## Claim theorems -/

/-- Claim C10: for Register or Update with a correct admin token, the
content-type header is accepted exactly when lodash-capitalizing it yields
`Application/json`; that comparison is equivalent to lower-casing the
whole value to `application/json` (case-insensitive acceptance), and a
rejected value is answered 415 with no store access and no store change. -/
theorem contentType_capitalize_accept (ct : String) (env : Env)
    (t d u : JStr) (id : String) (store : PrimaryStore) (idx : SearchIndex) :
    (checkHeaders ⟨some "dabs", some ct⟩ true = none
      ↔ capList (strN ct) = strN "Application/json")
    ∧ (capList (strN ct) = strN "Application/json"
      ↔ lowList (strN ct) = strN "application/json")
    ∧ (capList (strN ct) ≠ strN "Application/json" →
        register env ⟨some "dabs", some ct⟩ t d u store idx
          = ⟨415, [], store, idx, none⟩
        ∧ update env ⟨some "dabs", some ct⟩ id t d u store idx
          = ⟨415, [], store, idx, none⟩) := by
  refine ⟨?_, capList_eq_iff_lowList_eq _, ?_⟩
  · unfold checkHeaders
    simp only [reduceIte, Option.getD_some]
    split <;> rename_i h <;> simp_all
  · intro h
    have hch : checkHeaders ⟨some "dabs", some ct⟩ true = some 415 := by
      unfold checkHeaders
      simp only [reduceIte, Option.getD_some]
      split <;> rename_i h2 <;> simp_all
    constructor
    · unfold register; rw [hch]
    · unfold update; rw [hch]

/-- Witness for C10 at concrete inputs: `APPLICATION/JSON` is accepted,
and `application/json; charset=utf-8` is rejected with 415 and an empty
store trace. -/
theorem contentType_capitalize_accept_witness :
    checkHeaders ⟨some "dabs", some "APPLICATION/JSON"⟩ true = none
    ∧ register envW ⟨some "dabs", some "application/json; charset=utf-8"⟩
        (JStr.str "Acme") JStr.undef JStr.undef [] []
        = ⟨415, [], [], [], none⟩ :=
  ⟨((contentType_capitalize_accept "APPLICATION/JSON" envW
      JStr.undef JStr.undef JStr.undef "x" [] []).1).mpr (by decide),
   ((contentType_capitalize_accept "application/json; charset=utf-8" envW
      (JStr.str "Acme") JStr.undef JStr.undef "x" [] []).2.2 (by decide)).1⟩

/-- Claim C8 counterexample: the array `[1, 2]` is not string-typed, yet
`validateId` rejects it with the "too short" reason (the length check runs
before the type check), not the "wrong type" reason; and a null candidate
does not fail with any reason at all — reading its `.length` throws a
TypeError. -/
theorem validateId_nonstring_cx :
    isStringVal (JSVal.arr 2) = false
    ∧ validateId (JSVal.arr 2) = ValidateResult.err tooShortMsg
    ∧ tooShortMsg ≠ wrongTypeMsg
    ∧ validateId JSVal.null = ValidateResult.crash := by decide

/-- Claim C8 (amended): validation succeeds exactly for string values of
length ≥ 12; a null or undefined candidate crashes the validator with a
TypeError at the `.length` access, producing no reason at all; every other
non-string candidate fails, carrying the wrong-type reason exactly when
its JavaScript `.length` is not below 12 (undefined lengths of numbers and
booleans compare false), and the too-short reason when its length is below
12. -/
theorem validateId_characterization (v : JSVal) :
    (validateId v = ValidateResult.ok ↔ ∃ s, v = JSVal.str s ∧ 12 ≤ s.length)
    ∧ (jsLength v = Except.error () → validateId v = ValidateResult.crash)
    ∧ (isStringVal v = false → validateId v ≠ ValidateResult.ok)
    ∧ (∀ l, jsLength v = Except.ok l → isStringVal v = false →
        (validateId v = ValidateResult.err wrongTypeMsg ↔ jsLtNum l 12 = false))
    ∧ (∀ l, jsLength v = Except.ok l → jsLtNum l 12 = true →
        validateId v = ValidateResult.err tooShortMsg) := by
  cases v <;>
    simp [validateId, jsLength, jsLtNum, isStringVal, tooShortMsg, wrongTypeMsg]
  split <;> simp

/-- Witness for C8 at concrete inputs: a 12-character string passes, null
crashes, a number fails with the wrong-type reason, a short array with
too-short. -/
theorem validateId_characterization_witness :
    validateId (JSVal.str "aaaaaaaaaaaa") = ValidateResult.ok
    ∧ validateId JSVal.null = ValidateResult.crash
    ∧ validateId (JSVal.num 7) = ValidateResult.err wrongTypeMsg
    ∧ validateId (JSVal.arr 3) = ValidateResult.err tooShortMsg :=
  ⟨(validateId_characterization (JSVal.str "aaaaaaaaaaaa")).1.mpr
      ⟨"aaaaaaaaaaaa", rfl, by decide⟩,
   (validateId_characterization JSVal.null).2.1 rfl,
   ((validateId_characterization (JSVal.num 7)).2.2.2.1 none rfl rfl).mpr rfl,
   (validateId_characterization (JSVal.arr 3)).2.2.2.2 (some 3) rfl (by decide)⟩

/-- Claim C7: a FetchOne, Update or Remove invocation whose id is shorter
than 12 units (with the header checks passed, which precede id validation
for Update and Remove) answers 412 and performs zero store accesses: its
trace is empty and neither the primary store nor the search index
changes. -/
theorem shortId_no_store_access (env : Env) (req : Req) (id : String)
    (t d u : JStr) (store : PrimaryStore) (idx : SearchIndex)
    (h : id.length < 12) :
    fetchOne env id store = ⟨412, [], store, [], none⟩
    ∧ (checkHeaders req true = none →
        update env req id t d u store idx = ⟨412, [], store, idx, none⟩)
    ∧ (checkHeaders req false = none →
        remove env req id store idx = ⟨412, [], store, idx, none⟩) := by
  have hv : validateId (JSVal.str id) = ValidateResult.err tooShortMsg := by
    rw [validateId_str, if_pos h]
  have hg : getCompanyById env id store = (Except.error 412, []) := by
    unfold getCompanyById; rw [hv]
  refine ⟨?_, ?_, ?_⟩
  · unfold fetchOne; rw [hg]
  · intro hch; unfold update; rw [hch, hg]
  · intro hch; unfold remove; rw [hch, hg]

/-- Witness for C7 at the concrete short id `abc`. -/
theorem shortId_no_store_access_witness :
    fetchOne envW "abc" storeW = ⟨412, [], storeW, [], none⟩
    ∧ update envW reqW "abc" JStr.undef JStr.undef JStr.undef storeW []
        = ⟨412, [], storeW, [], none⟩
    ∧ remove envW reqW "abc" storeW [] = ⟨412, [], storeW, [], none⟩ :=
  ⟨(shortId_no_store_access envW reqW "abc" JStr.undef JStr.undef JStr.undef
      storeW [] (by decide)).1,
   (shortId_no_store_access envW reqW "abc" JStr.undef JStr.undef JStr.undef
      storeW [] (by decide)).2.1 (by decide),
   (shortId_no_store_access envW reqW "abc" JStr.undef JStr.undef JStr.undef
      storeW [] (by decide)).2.2 (by decide)⟩

/-- Claim C1 counterexample: a Register that passes the header checks and
the duplicate check, whose primary insert succeeds (the record is in the
store afterwards), but whose index upsert fails, answers 500 with no id —
not success with the assigned id as the claim states. -/
theorem register_index_failure_cx :
    (register envIdxFail reqW (JStr.str "Acme") JStr.undef JStr.undef [] []).status = 500
    ∧ (register envIdxFail reqW (JStr.str "Acme") JStr.undef JStr.undef [] []).returnedId
        = none
    ∧ (register envIdxFail reqW (JStr.str "Acme") JStr.undef JStr.undef [] []).primary
        = [⟨"n23456789012", "Acme", "", "", 5⟩]
    ∧ (500 : Nat) ≠ 201 := by decide

/-- Claim C1 (amended): when a Register passes the header checks and the
duplicate check and the primary insert succeeds, a failing index upsert
makes the operation report failure (status 500) with no id to the caller,
although the inserted record stays in the primary store; success (201 with
the assigned id) is reported only when the index upsert also succeeds. -/
theorem register_index_failure (env : Env) (req : Req) (t d u : JStr)
    (store : PrimaryStore) (idx : SearchIndex)
    (hh : checkHeaders req true = none) (hfind : env.findErr = false)
    (hdup : findByTitle t store = none) (hval : titleValid t = true)
    (hsave : env.saveErr = false) :
    (env.indexErr = true →
      (register env req t d u store idx).status = 500
      ∧ (register env req t d u store idx).returnedId = none
      ∧ (register env req t d u store idx).primary
          = store ++ [⟨env.newId, jstrOrEmpty t, jstrOrEmpty d, jstrOrEmpty u, env.now⟩])
    ∧ (env.indexErr = false →
      (register env req t d u store idx).status = 201
      ∧ (register env req t d u store idx).returnedId = some env.newId) := by
  constructor <;> intro hidx <;>
    simp [register, hh, hfind, hdup, hval, hsave, hidx]

/-- Witness for C1 (amended) at concrete inputs: with a failing index the
status is 500 and no id is returned; without, 201 with the id. -/
theorem register_index_failure_witness :
    (register envIdxFail reqW (JStr.str "Beta") JStr.undef JStr.undef [] []).status = 500
    ∧ (register envW reqW (JStr.str "Beta") JStr.undef JStr.undef [] []).status = 201 :=
  ⟨((register_index_failure envIdxFail reqW (JStr.str "Beta") JStr.undef JStr.undef
      [] [] (by decide) rfl rfl (by decide) rfl).1 rfl).1,
   ((register_index_failure envW reqW (JStr.str "Beta") JStr.undef JStr.undef
      [] [] (by decide) rfl rfl (by decide) rfl).2 rfl).1⟩

/-- Claim C5: when a Remove passes headers and id validation, finds the
company, and the primary delete succeeds, deleting an id that is absent
from the search index is not an error: the operation still answers 200 and
the index is simply left unchanged.  (The index adapter is modelled from
the spec's §4.3 contract, under which delete is idempotent; the
ElasticSearch service itself is outside the repository.) -/
theorem remove_absent_index_ok (env : Env) (req : Req) (id : String)
    (store : PrimaryStore) (idx : SearchIndex) (c : Company)
    (hh : checkHeaders req false = none) (hlen : ¬ id.length < 12)
    (hcast : env.castErr = false) (hfind : env.findErr = false)
    (hfound : findById id store = some c)
    (hrem : env.removeErr = false) (hidx : env.indexErr = false)
    (habsent : lookupIdx idx id = none) :
    (remove env req id store idx).status = 200
    ∧ (remove env req id store idx).index = idx := by
  have hg := getCompanyById_ok env id store c hlen hcast hfind hfound
  simp [remove, hh, hg, hrem, hidx, deleteIdx_absent idx id habsent]

/-- Witness for C5: removing the only company while the index is empty
still answers 200. -/
theorem remove_absent_index_ok_witness :
    (remove envW reqW "cccccccccccc" storeW []).status = 200
    ∧ (remove envW reqW "cccccccccccc" storeW []).index = [] :=
  remove_absent_index_ok envW reqW "cccccccccccc" storeW []
    ⟨"cccccccccccc", "Acme", "", "", 3⟩ (by decide) (by decide) rfl rfl
    (by decide) rfl rfl (by decide)

/-- Claim C6 counterexample: a Register with a null title (headers
passing, empty store) does answer 412, but its trace shows that both the
duplicate-check read and the insert were executed before the validation
error was returned — not zero primary-store calls as the claim states;
and a Register with a missing (undefined) title on a non-empty store does
not answer 412 at all: mongoose strips the undefined condition, the
duplicate check degenerates to `findOne({})`, and the operation answers
409. -/
theorem register_null_title_cx :
    (register envW reqW JStr.null JStr.undef JStr.undef [] []).status = 412
    ∧ (register envW reqW JStr.null JStr.undef JStr.undef [] []).events
        = [Ev.primaryFind, Ev.primarySave "n23456789012"]
    ∧ (register envW reqW JStr.null JStr.undef JStr.undef [] []).events ≠ []
    ∧ (register envW reqW JStr.undef JStr.undef JStr.undef storeW []).status = 409 := by
  decide

/-- Claim C6 (amended): for a Register passing the header checks, a null
title answers ValidationError (412), but the error is detected by the
primary store itself: the duplicate-check read and the insert call are
both executed before the 412 is returned (the handler performs no
validation of its own ahead of the store calls).  A missing (undefined)
title is stripped from the duplicate-check query by mongoose, leaving
`findOne({})`: on a non-empty store the operation therefore answers 409
DuplicateError after the read alone, and only on an empty store does it
reach the insert and answer 412. -/
theorem register_null_title (env : Env) (req : Req) (d u : JStr)
    (store : PrimaryStore) (idx : SearchIndex)
    (hh : checkHeaders req true = none) (hfind : env.findErr = false) :
    ((register env req JStr.null d u store idx).status = 412
      ∧ (register env req JStr.null d u store idx).events
          = [Ev.primaryFind, Ev.primarySave env.newId])
    ∧ (store = [] →
        (register env req JStr.undef d u store idx).status = 412
        ∧ (register env req JStr.undef d u store idx).events
            = [Ev.primaryFind, Ev.primarySave env.newId])
    ∧ (∀ c cs, store = c :: cs →
        register env req JStr.undef d u store idx
          = ⟨409, [Ev.primaryFind], store, idx, none⟩) := by
  refine ⟨?_, ?_, ?_⟩
  · simp [register, hh, hfind, findByTitle, titleValid]
  · intro hst
    subst hst
    simp [register, hh, hfind, findByTitle, titleValid]
  · intro c cs hst
    subst hst
    simp [register, hh, hfind, findByTitle]

/-- Witness for C6 (amended): on the one-company store a null title gives
the 412 path with both store calls, while an undefined title is answered
409 after the read alone. -/
theorem register_null_title_witness :
    (register envW reqW JStr.null JStr.undef JStr.undef storeW []).status = 412
    ∧ register envW reqW JStr.undef JStr.undef JStr.undef storeW []
        = ⟨409, [Ev.primaryFind], storeW, [], none⟩ :=
  ⟨((register_null_title envW reqW JStr.undef JStr.undef storeW []
      (by decide) rfl).1).1,
   (register_null_title envW reqW JStr.undef JStr.undef storeW []
      (by decide) rfl).2.2 ⟨"cccccccccccc", "Acme", "", "", 3⟩ [] rfl⟩

/-- Claim C9 counterexample: a truthy supplied title is not always
overwritten into the stored record — an over-long (101-character) truthy
title makes the save's schema validation fail, so the operation answers
500 and the primary store keeps the old record unchanged. -/
theorem update_overlong_title_cx :
    truthy (JStr.str longTitle) = true
    ∧ (update envW reqW "cccccccccccc" (JStr.str longTitle) JStr.undef JStr.undef
        storeW []).status = 500
    ∧ (update envW reqW "cccccccccccc" (JStr.str longTitle) JStr.undef JStr.undef
        storeW []).primary = storeW
    ∧ findById "cccccccccccc" storeW = some ⟨"cccccccccccc", "Acme", "", "", 3⟩
    ∧ "Acme" ≠ longTitle := by decide

/-- Claim C9 (amended): an Update on an existing company computes the
partial merge — each of title, description, url is overwritten in the
merged document exactly when the supplied value is truthy, retained
otherwise — and stores it when the merged title passes the schema's 1-100
bounds on save; a patch supplying only a description therefore leaves
title and url unchanged.  When the merged title violates the schema (an
over-long truthy title), the save fails and the operation answers 500
with the primary store unchanged. -/
theorem update_partial_merge (env : Env) (req : Req) (id : String)
    (t d u : JStr) (store : PrimaryStore) (idx : SearchIndex) (c : Company)
    (hh : checkHeaders req true = none) (hlen : ¬ id.length < 12)
    (hcast : env.castErr = false) (hfind : env.findErr = false)
    (hfound : findById id store = some c) (hsave : env.saveErr = false) :
    (titleStrValid (applyPatch c t d u).title = true →
      applyPatch c t d u ∈ (update env req id t d u store idx).primary)
    ∧ (titleStrValid (applyPatch c t d u).title = false →
      (update env req id t d u store idx).status = 500
      ∧ (update env req id t d u store idx).primary = store)
    ∧ (truthy t = true → (applyPatch c t d u).title = jstrOrEmpty t)
    ∧ (truthy t = false → (applyPatch c t d u).title = c.title)
    ∧ (truthy d = true → (applyPatch c t d u).description = jstrOrEmpty d)
    ∧ (truthy d = false → (applyPatch c t d u).description = c.description)
    ∧ (truthy u = true → (applyPatch c t d u).url = jstrOrEmpty u)
    ∧ (truthy u = false → (applyPatch c t d u).url = c.url) := by
  have hg := getCompanyById_ok env id store c hlen hcast hfind hfound
  have hcid : c.id = id := by
    have := List.find?_some hfound
    simpa using this
  refine ⟨?_, ?_, ?_, ?_, ?_, ?_, ?_, ?_⟩
  · intro hval
    have hm : applyPatch c t d u ∈ replaceById store id (applyPatch c t d u) := by
      unfold replaceById
      exact List.mem_map.mpr
        ⟨c, List.mem_of_find?_eq_some hfound, by simp [hcid]⟩
    cases hidx : env.indexErr <;> simp [update, hh, hg, hsave, hval, hidx, hm]
  · intro hval
    constructor <;> simp [update, hh, hg, hval]
  all_goals (intro h; simp [applyPatch, h])

/-- Witness for C9 (amended): updating only the description of the stored
company persists the merge and leaves title and url unchanged. -/
theorem update_partial_merge_witness :
    applyPatch ⟨"cccccccccccc", "Acme", "", "", 3⟩ JStr.undef (JStr.str "W") JStr.undef
      ∈ (update envW reqW "cccccccccccc" JStr.undef (JStr.str "W") JStr.undef
          storeW []).primary
    ∧ (applyPatch ⟨"cccccccccccc", "Acme", "", "", 3⟩ JStr.undef (JStr.str "W")
        JStr.undef).title = "Acme"
    ∧ (applyPatch ⟨"cccccccccccc", "Acme", "", "", 3⟩ JStr.undef (JStr.str "W")
        JStr.undef).description = "W" :=
  ⟨(update_partial_merge envW reqW "cccccccccccc" JStr.undef (JStr.str "W") JStr.undef
      storeW [] ⟨"cccccccccccc", "Acme", "", "", 3⟩ (by decide) (by decide) rfl rfl
      (by decide) rfl).1 (by decide),
   (update_partial_merge envW reqW "cccccccccccc" JStr.undef (JStr.str "W") JStr.undef
      storeW [] ⟨"cccccccccccc", "Acme", "", "", 3⟩ (by decide) (by decide) rfl rfl
      (by decide) rfl).2.2.2.1 rfl,
   (update_partial_merge envW reqW "cccccccccccc" JStr.undef (JStr.str "W") JStr.undef
      storeW [] ⟨"cccccccccccc", "Acme", "", "", 3⟩ (by decide) (by decide) rfl rfl
      (by decide) rfl).2.2.2.2.1 (by decide)⟩

/-- The possible store-access traces of a Register: nothing (header
error), the duplicate-check read alone, read then save, or read, save and
index upsert — the last only when the save did not fail. -/
theorem register_events_shape (env : Env) (req : Req) (t d u : JStr)
    (store : PrimaryStore) (idx : SearchIndex) :
    (register env req t d u store idx).events = []
    ∨ (register env req t d u store idx).events = [Ev.primaryFind]
    ∨ (register env req t d u store idx).events
        = [Ev.primaryFind, Ev.primarySave env.newId]
    ∨ (env.saveErr = false ∧ (register env req t d u store idx).events
        = [Ev.primaryFind, Ev.primarySave env.newId, Ev.indexUpsert env.newId]) := by
  cases hch : checkHeaders req true <;>
    cases hf : env.findErr <;>
    cases hd : findByTitle t store <;>
    cases hv : titleValid t <;>
    cases hs : env.saveErr <;>
    cases hi : env.indexErr <;>
    simp [register, hch, hf, hd, hv, hs, hi]

/-- The possible store-access traces of an Update. -/
theorem update_events_shape (env : Env) (req : Req) (id : String)
    (t d u : JStr) (store : PrimaryStore) (idx : SearchIndex) :
    (update env req id t d u store idx).events = []
    ∨ (update env req id t d u store idx).events = [Ev.primaryFindId id]
    ∨ (update env req id t d u store idx).events
        = [Ev.primaryFindId id, Ev.primarySave id]
    ∨ (env.saveErr = false ∧ (update env req id t d u store idx).events
        = [Ev.primaryFindId id, Ev.primarySave id, Ev.indexUpsert id]) := by
  rcases getCompanyById_cases env id store with h | ⟨code, _, h⟩ | ⟨c, _, h⟩
  · cases hch : checkHeaders req true <;> simp [update, h, hch]
  · cases hch : checkHeaders req true <;> simp [update, h, hch]
  · cases hch : checkHeaders req true <;>
      cases hv : titleStrValid (applyPatch c t d u).title <;>
      cases hs : env.saveErr <;>
      cases hi : env.indexErr <;>
      simp [update, h, hch, hv, hs, hi]

/-- The possible store-access traces of a Remove. -/
theorem remove_events_shape (env : Env) (req : Req) (id : String)
    (store : PrimaryStore) (idx : SearchIndex) :
    (remove env req id store idx).events = []
    ∨ (remove env req id store idx).events = [Ev.primaryFindId id]
    ∨ (remove env req id store idx).events
        = [Ev.primaryFindId id, Ev.primaryRemove id]
    ∨ (env.removeErr = false ∧ (remove env req id store idx).events
        = [Ev.primaryFindId id, Ev.primaryRemove id, Ev.indexDelete id]) := by
  rcases getCompanyById_cases env id store with h | ⟨code, _, h⟩ | ⟨c, _, h⟩ <;>
    cases hch : checkHeaders req false <;>
    cases hr : env.removeErr <;>
    cases hi : env.indexErr <;>
    simp [remove, h, hch, hr, hi]

/-- Claim C2: in Register, Update and Remove alike, every search-index
access in the trace is strictly preceded by a primary-store access, and
when the primary-store write fails (save for Register/Update, remove for
Remove), the search index is not touched at all. -/
theorem primary_leads_index (env : Env) (req : Req) (t d u : JStr)
    (id : String) (store : PrimaryStore) (idx : SearchIndex) :
    primLeads (register env req t d u store idx).events = true
    ∧ primLeads (update env req id t d u store idx).events = true
    ∧ primLeads (remove env req id store idx).events = true
    ∧ (env.saveErr = true →
        hasIndexEv (register env req t d u store idx).events = false
        ∧ hasIndexEv (update env req id t d u store idx).events = false)
    ∧ (env.removeErr = true →
        hasIndexEv (remove env req id store idx).events = false) := by
  have hreg := register_events_shape env req t d u store idx
  have hupd := update_events_shape env req id t d u store idx
  have hrem := remove_events_shape env req id store idx
  refine ⟨?_, ?_, ?_, ?_, ?_⟩
  · rcases hreg with h | h | h | ⟨_, h⟩ <;>
      simp [h, primLeads, primLeadsAux, isIndexEv, isPrimaryEv]
  · rcases hupd with h | h | h | ⟨_, h⟩ <;>
      simp [h, primLeads, primLeadsAux, isIndexEv, isPrimaryEv]
  · rcases hrem with h | h | h | ⟨_, h⟩ <;>
      simp [h, primLeads, primLeadsAux, isIndexEv, isPrimaryEv]
  · intro hs
    constructor
    · rcases hreg with h | h | h | ⟨h', h⟩ <;>
        simp_all [hasIndexEv, isIndexEv]
    · rcases hupd with h | h | h | ⟨h', h⟩ <;>
        simp_all [hasIndexEv, isIndexEv]
  · intro hr
    rcases hrem with h | h | h | ⟨h', h⟩ <;>
      simp_all [hasIndexEv, isIndexEv]

/-- Witness for C2 at concrete inputs: a successful register's trace keeps
primary accesses ahead of the index write, and with a failing save the
index is never touched. -/
theorem primary_leads_index_witness :
    primLeads (register envW reqW (JStr.str "Acme") JStr.undef JStr.undef [] []).events
      = true
    ∧ hasIndexEv (register envSaveFail reqW (JStr.str "Acme") JStr.undef JStr.undef
        [] []).events = false :=
  ⟨(primary_leads_index envW reqW (JStr.str "Acme") JStr.undef JStr.undef
      "x" [] []).1,
   ((primary_leads_index envSaveFail reqW (JStr.str "Acme") JStr.undef JStr.undef
      "x" [] []).2.2.2.1 rfl).1⟩

/-- The primary store after a Register: unchanged, or extended with the
new record — the latter only when the title is a string that no stored
record carries. -/
theorem register_primary_shape (env : Env) (req : Req) (t d u : JStr)
    (store : PrimaryStore) (idx : SearchIndex) :
    (register env req t d u store idx).primary = store
    ∨ (∃ s, t = JStr.str s ∧ (store.find? fun c => c.title == s) = none ∧
        (register env req t d u store idx).primary
          = store ++ [⟨env.newId, s, jstrOrEmpty d, jstrOrEmpty u, env.now⟩]) := by
  cases t with
  | null =>
    left
    cases hch : checkHeaders req true <;>
      cases hf : env.findErr <;>
      simp [register, hch, hf, findByTitle, titleValid]
  | undef =>
    left
    cases hch : checkHeaders req true <;>
      cases hf : env.findErr <;>
      cases hd : store.head? <;>
      simp [register, hch, hf, findByTitle, titleValid, hd]
  | str s =>
    cases hch : checkHeaders req true <;>
      cases hf : env.findErr <;>
      cases hd : store.find? (fun c => c.title == s) <;>
      cases hv : titleValid (JStr.str s) <;>
      cases hs : env.saveErr <;>
      cases hi : env.indexErr
    all_goals
      first
      | (left; simp [register, hch, hf, findByTitle, hd, hv, hs, hi]; done)
      | (right
         exact ⟨s, rfl, hd, by
          simp [register, hch, hf, findByTitle, hd, hv, hs, hi, jstrOrEmpty]⟩)

/-- The primary store after a Remove: unchanged, or with the records whose
id matched the parameter filtered out. -/
theorem remove_primary_shape (env : Env) (req : Req) (id : String)
    (store : PrimaryStore) (idx : SearchIndex) :
    (remove env req id store idx).primary = store
    ∨ (remove env req id store idx).primary = store.filter (fun x => x.id ≠ id) := by
  rcases getCompanyById_cases env id store with h | ⟨code, _, h⟩ | ⟨c, _, h⟩ <;>
    cases hch : checkHeaders req false <;>
    cases hr : env.removeErr <;>
    cases hi : env.indexErr <;>
    simp [remove, h, hch, hr, hi]

/-- Claim C3 counterexample: the uniqueness invariant is not preserved by
Update.  On a store holding titles `Acme` and `Beta`, updating the second
company's title to `Acme` succeeds (status 200) and leaves two records
with the same title in the primary store. -/
theorem update_breaks_uniqueness_cx :
    uniqueTitles storeW2
    ∧ (update envW reqW "dddddddddddd" (JStr.str "Acme") JStr.undef JStr.undef
        storeW2 []).status = 200
    ∧ ¬ uniqueTitles
        (update envW reqW "dddddddddddd" (JStr.str "Acme") JStr.undef JStr.undef
          storeW2 []).primary := by decide

/-- Claim C3 (amended): Register with a title equal to a stored record's
title always answers 409 (DuplicateError) and changes nothing, regardless
of description/url, and Register and Remove preserve the at-most-one-
company-per-title invariant; Update, however, performs no duplicate check
and can break the invariant by renaming a record to an existing title. -/
theorem register_remove_uniqueness (env : Env) (req : Req) (t d u : JStr)
    (id : String) (store : PrimaryStore) (idx : SearchIndex)
    (hu : uniqueTitles store) :
    uniqueTitles (register env req t d u store idx).primary
    ∧ uniqueTitles (remove env req id store idx).primary
    ∧ (∀ c, c ∈ store → t = JStr.str c.title → checkHeaders req true = none →
        env.findErr = false →
        register env req t d u store idx = ⟨409, [Ev.primaryFind], store, idx, none⟩) := by
  refine ⟨?_, ?_, ?_⟩
  · rcases register_primary_shape env req t d u store idx with h | ⟨s, ht, hfr, h⟩
    · rw [h]; exact hu
    · rw [h]
      unfold uniqueTitles at *
      rw [List.map_append]
      refine List.Nodup.append hu (by simp) ?_
      intro a ha has
      simp only [List.map_cons, List.map_nil, List.mem_singleton] at has
      subst has
      rcases List.mem_map.mp ha with ⟨x, hx, hxs⟩
      have := List.find?_eq_none.mp hfr x hx
      simp_all
  · rcases remove_primary_shape env req id store idx with h | h <;> rw [h]
    · exact hu
    · exact List.Nodup.sublist
        (List.Sublist.map (fun c => c.title) (List.filter_sublist store)) hu
  · intro c hc ht hch hf
    have hsome : (store.find? fun x => x.title == c.title).isSome :=
      List.find?_isSome.mpr ⟨c, hc, by simp⟩
    rcases Option.isSome_iff_exists.mp hsome with ⟨w, hw⟩
    subst ht
    simp [register, hch, hf, findByTitle, hw]

/-- Witness for C3 (amended): on the unique-title two-company store,
register of a duplicate `Acme` answers 409, and remove keeps titles
unique. -/
theorem register_remove_uniqueness_witness :
    uniqueTitles (remove envW reqW "cccccccccccc" storeW2 []).primary
    ∧ register envW reqW (JStr.str "Acme") JStr.undef JStr.undef storeW2 []
        = ⟨409, [Ev.primaryFind], storeW2, [], none⟩ :=
  ⟨(register_remove_uniqueness envW reqW (JStr.str "Acme") JStr.undef JStr.undef
      "cccccccccccc" storeW2 [] (by decide)).2.1,
   (register_remove_uniqueness envW reqW (JStr.str "Acme") JStr.undef JStr.undef
      "cccccccccccc" storeW2 [] (by decide)).2.2
      ⟨"cccccccccccc", "Acme", "", "", 3⟩ (by decide) rfl (by decide) rfl⟩

/-- The index document present under the updated id before the C4
counterexample's update runs: a faithful mirror including `created`. -/
def idxW : SearchIndex := [("cccccccccccc", ⟨"Acme", "", "", some 3⟩)]

/-- Claim C4 counterexample: after a successful Update (status 200) the
index document under the company's id has no `created` field (the update
handler reindexes with `excludeTitles(dbCompany)`, which drops it), so it
does not equal the primary record's `{title, description, url, created}`
even though the primary record's `created` is 3. -/
theorem update_drops_created_cx :
    (update envW reqW "cccccccccccc" JStr.undef (JStr.str "W") JStr.undef
        storeW idxW).status = 200
    ∧ (update envW reqW "cccccccccccc" JStr.undef (JStr.str "W") JStr.undef
        storeW idxW).primary = [⟨"cccccccccccc", "Acme", "W", "", 3⟩]
    ∧ lookupIdx (update envW reqW "cccccccccccc" JStr.undef (JStr.str "W") JStr.undef
        storeW idxW).index "cccccccccccc" = some ⟨"Acme", "W", "", none⟩
    ∧ (⟨"Acme", "W", "", none⟩ : IndexDoc).created ≠ some 3 := by decide

/-- Claim C4 (amended): after a successful Register the index document
under the new id mirrors the primary record's title, description, url and
`created`; after a successful Update the index document under the id
mirrors title, description and url of the stored record but carries no
`created` field. -/
theorem index_mirror (env : Env) (req : Req) (t d u : JStr) (id : String)
    (store : PrimaryStore) (idx : SearchIndex) :
    ((register env req t d u store idx).status = 201 →
      ∃ c, c ∈ (register env req t d u store idx).primary ∧ c.id = env.newId
        ∧ lookupIdx (register env req t d u store idx).index env.newId
            = some ⟨c.title, c.description, c.url, some c.created⟩)
    ∧ ((update env req id t d u store idx).status = 200 →
      ∃ c, c ∈ (update env req id t d u store idx).primary ∧ c.id = id
        ∧ lookupIdx (update env req id t d u store idx).index id
            = some ⟨c.title, c.description, c.url, none⟩) := by
  constructor
  · cases hch : checkHeaders req true with
    | some code =>
      intro h201
      exfalso
      rcases checkHeaders_codes req true code hch with h | h <;>
        simp [register, hch, h] at h201
    | none =>
      cases hf : env.findErr <;>
        cases hd : findByTitle t store <;>
        cases hv : titleValid t <;>
        cases hs : env.saveErr <;>
        cases hi : env.indexErr <;>
        intro h201 <;>
        first
        | (simp [register, hch, hf, hd, hv, hs, hi] at h201; done)
        | exact ⟨⟨env.newId, jstrOrEmpty t, jstrOrEmpty d, jstrOrEmpty u, env.now⟩,
            by simp [register, hch, hf, hd, hv, hs, hi],
            rfl,
            by simp [register, hch, hf, hd, hv, hs, hi, lookupIdx_upsert]⟩
  · cases hch : checkHeaders req true with
    | some code =>
      intro h200
      exfalso
      rcases checkHeaders_codes req true code hch with h | h <;>
        simp [update, hch, h] at h200
    | none =>
      rcases getCompanyById_cases env id store with hg | ⟨code, hcode, hg⟩ | ⟨c, hfound, hg⟩
      · intro h200
        simp [update, hch, hg] at h200
      · intro h200
        rcases hcode with rfl | rfl <;> simp [update, hch, hg] at h200
      · have hcid : c.id = id := by
          have := List.find?_some hfound
          simpa using this
        have hm : applyPatch c t d u ∈ replaceById store id (applyPatch c t d u) := by
          unfold replaceById
          exact List.mem_map.mpr
            ⟨c, List.mem_of_find?_eq_some hfound, by simp [hcid]⟩
        cases hv : titleStrValid (applyPatch c t d u).title <;>
          cases hs : env.saveErr <;>
          cases hi : env.indexErr <;>
          intro h200 <;>
          first
          | (simp [update, hch, hg, hv, hs, hi] at h200; done)
          | exact ⟨applyPatch c t d u,
              by simp [update, hch, hg, hv, hs, hi, hm],
              by simp [applyPatch, hcid],
              by simp [update, hch, hg, hv, hs, hi, lookupIdx_upsert]⟩

/-- Witness for C4 (amended): a concrete successful register's index
document mirrors the inserted record including `created`. -/
theorem index_mirror_witness :
    ∃ c, c ∈ (register envW reqW (JStr.str "Acme") JStr.undef JStr.undef [] []).primary
      ∧ c.id = envW.newId
      ∧ lookupIdx (register envW reqW (JStr.str "Acme") JStr.undef JStr.undef [] []).index
          envW.newId = some ⟨c.title, c.description, c.url, some c.created⟩ :=
  (index_mirror envW reqW (JStr.str "Acme") JStr.undef JStr.undef "x" [] []).1
    (by decide)
